import Mathlib

/-!
Verification of the voice-chat widget of this repository (the application
component in src/unnamed/part_000, an App.tsx file, and the recognition
hook src/src/hooks/useSpeechRecognition.ts).

The embedding follows the source line by line:

* React state variables and mutable refs become fields of SysState.
* Every handler becomes a pure function SysState -> SysState x List Effect;
  the effect list records the outward-visible calls (network requests,
  speech playback, recognizer start/stop/abort).
* Every setTimeout becomes a scheduled task.  Timeouts the code stores in
  refs (timeoutRef, silenceTimeoutRef of the hook) are Option fields,
  because the code cancels them through those refs; anonymous timeouts
  (the 100ms transcript hand-off of processVoiceResult, the restart
  timers of the App handlers, the 1000ms processing-flag reset of
  onend/onerror) are queued in pendingAnon and cannot be cancelled,
  exactly as in the code.
* An await boundary splits each async handler into a pre part and a
  success/failure continuation, run when the network answers; the counter
  inflight counts outstanding voice-turn requests.
* The speech-synthesis adapter (src/hooks/useSpeechSynthesis.ts) is not
  under src/; speakStart and stopSpeaking model it from the spec.
* The microphone-permission probe is modelled as granted and
  recognition.start() as succeeding with its onstart callback delivered;
  no claim below concerns the denial path.
-/

namespace Ok25

/-- Whitespace as trimmed by JavaScript's String.prototype.trim (the
characters occurring in practice; exotic Unicode spaces are not needed by
any claim). -/
def isJsSpace (c : Char) : Bool :=
  c == ' ' || c == '\t' || c == '\n' || c == '\r'

/-- Executable model of JavaScript's String.prototype.trim.  (Lean's own
String.trim is implemented by well-founded recursion and does not reduce
inside the kernel, so concrete evaluations could not use it.) -/
def jsTrim (s : String) : String :=
  String.mk (((s.data.dropWhile isJsSpace).reverse.dropWhile isJsSpace).reverse)

/-- Executable model of JavaScript's String.prototype.endsWith. -/
def jsEndsWith (s suffix : String) : Bool :=
  suffix.data.reverse.isPrefixOf s.data.reverse

/-- Sender kind of a chat message (the type field, user or bot). -/
inductive MsgType
  | user
  | bot
  deriving DecidableEq, Repr

/-- ChatAttachment, as constructed in handleFileChange. -/
structure ChatAttachment where
  name : String
  mime : String
  contentString : String
  deriving DecidableEq, Repr

/-- ChatMessage, as constructed at the message-creation sites of the App
component (id and timestamp come from Date.now(), modelled by the abstract
clock field now of SysState). -/
structure ChatMessage where
  id : String
  type : MsgType
  message : String
  timestamp : Nat
  attachment : Option ChatAttachment := none
  deriving DecidableEq, Repr

/-- One entry of a SpeechRecognitionResultList, as read by onresult:
its finality flag and the transcript of its first alternative. -/
structure SpeechResult where
  isFinal : Bool
  transcript : String
  deriving DecidableEq, Repr

/-- Outward-visible calls made by the handlers. -/
inductive Effect
  | sendChat (message mode sessionId : String)
      (attachments : Option (List ChatAttachment)) (reset : Bool)
  | speakText (text : String) (hasOnDone : Bool)
  | stopSpeak
  | recStart
  | recStop
  | recAbort
  deriving DecidableEq, Repr

/-- Anonymous setTimeout callbacks: not stored in any ref, hence never
cancelled.  The Nat argument is the delay in milliseconds. -/
inductive AnonTask
  | dispatchTranscript (text : String) (delayMs : Nat)
  | appRestart (delayMs : Nat)
  | clearRecProcessing (delayMs : Nat)
  deriving DecidableEq, Repr

/-- The whole component state: App.tsx state and refs, the recognition
hook's state and refs, the synthesis adapter's flag, plus the environment
bookkeeping (outstanding requests, scheduled anonymous tasks, a clock). -/
structure SysState where
  -- App.tsx useState and useRef cells
  messages : List ChatMessage
  input : String
  isLoading : Bool
  attachment : Option ChatAttachment
  autoSpeak : Bool
  isVoiceMode : Bool
  currentUserSpeech : String
  currentBotSpeech : String
  voiceModeRef : Bool
  isProcessingVoiceRef : Bool
  -- useSpeechRecognition state and refs
  isListening : Bool
  transcript : String
  finalTranscriptRef : String
  recVoiceModeRef : Bool          -- isVoiceModeRef of the hook; also stands
                                  -- for onSpeechEndRef being non-null, since
                                  -- both are set from the same argument
  recProcessingRef : Bool         -- isProcessingRef of the hook
  lastProcessedTextRef : String
  recognitionActive : Bool        -- recognitionRef.current is non-null
  recTimeout : Option Nat         -- timeoutRef (delay of the pending restart)
  silenceTimeout : Option (String × Nat)  -- silenceTimeoutRef (captured text, delay)
  autoStopArmed : Bool            -- the local autoStopTimeout of startListening
  capturedIsListening : Bool      -- the isListening value captured by the
                                  -- startListening closure when useCallback
                                  -- memoized it (its dependency list is
                                  -- [isSupported, cleanup, processVoiceResult],
                                  -- so the closure is created while isListening
                                  -- is false and never refreshed afterwards);
                                  -- no transition writes this field
  -- useSpeechSynthesis (modelled from the spec, section 4.3)
  isSpeaking : Bool
  speakHasOnDone : Bool
  -- environment
  isMobile : Bool
  inflight : Nat                  -- outstanding voice-turn sendChatMessage calls
  pendingAnon : List AnonTask
  now : Nat
  deriving DecidableEq, Repr

/-- cleanup (hook, lines 54-69): clear both ref-stored timers, abort and
drop the recognizer, clear the listening and processing flags. -/
def cleanup (s : SysState) : SysState × List Effect :=
  let effs : List Effect := if s.recognitionActive then [Effect.recAbort] else []
  ({ s with recTimeout := none, silenceTimeout := none,
            recognitionActive := false, isListening := false,
            recProcessingRef := false }, effs)

/-- resetTranscript (hook, lines 333-339). -/
def resetTranscript (s : SysState) : SysState :=
  { s with transcript := "", finalTranscriptRef := "",
           lastProcessedTextRef := "", recProcessingRef := false }

/-- stopListening (hook, lines 324-331): leave voice mode (also nulls
onSpeechEndRef), clear processing state, then cleanup. -/
def stopListening (s : SysState) : SysState × List Effect :=
  cleanup { s with recVoiceModeRef := false, recProcessingRef := false,
                   lastProcessedTextRef := "" }

/-- Modelled from the spec: speak(text, onDone?) of the speech-synthesis
adapter (src/hooks/useSpeechSynthesis.ts is not under src/).  Spec section
4.3: playback begins and a boolean currently-speaking flag is tracked; the
completion callback runs on playback completion (section 4.1). -/
def speakStart (s : SysState) (text : String) (hasOnDone : Bool) :
    SysState × List Effect :=
  ({ s with isSpeaking := true, speakHasOnDone := hasOnDone },
   [Effect.speakText text hasOnDone])

/-- Modelled from the spec: stop() of the speech-synthesis adapter (file
not under src/).  Spec sections 4.3 and 4.1: playback stops and the
speaking flag clears; the completion callback is for playback completion,
so a stopped utterance does not invoke it. -/
def stopSpeaking (s : SysState) : SysState × List Effect :=
  ({ s with isSpeaking := false, speakHasOnDone := false }, [Effect.stopSpeak])

/-- Recognizer configuration (hook, line 156): continuous is disabled on
mobile. -/
def recognitionContinuous (isMobile : Bool) : Bool := !isMobile

/-- startListening in voice mode (hook, lines 124-177), with the
permission probe granted and start() succeeding: cleanup, set the mode
and transcript refs, create the recognizer, and deliver onstart (which
sets the listening flag, clears the displayed transcript, and on mobile
arms the 10s auto-stop timer; the arming condition isMobile and
isVoiceModeRef.current reads the ref just set to true). -/
def startListeningVoice (s : SysState) : SysState × List Effect :=
  let p := cleanup s
  ({ p.1 with recVoiceModeRef := true, finalTranscriptRef := "",
              recProcessingRef := false, lastProcessedTextRef := "",
              recognitionActive := true,
              -- onstart (lines 163-177)
              isListening := true, transcript := "",
              autoStopArmed := s.isMobile },
   p.2 ++ [Effect.recStart])

/-- The auto-stop timer callback (hook, lines 170-175).  Its condition
reads recognitionRef.current (current) and isListening; the latter is the
stale value captured by the memoized startListening closure, recorded in
capturedIsListening. -/
def autoStopFire (s : SysState) : SysState × List Effect :=
  if s.autoStopArmed then
    let s := { s with autoStopArmed := false }
    if s.recognitionActive && s.capturedIsListening then (s, [Effect.recStop])
    else (s, [])
  else (s, [])

/-- processVoiceResult (hook, lines 91-122): drop duplicates, empty and
short text; otherwise latch the processing flag, stop the recognizer, and
schedule the 100ms hand-off of the transcript to the voice-mode callback
(an anonymous setTimeout, not stored in any ref). -/
def processVoiceResult (s : SysState) (text : String) : SysState × List Effect :=
  let trimmedText := jsTrim text
  if s.recProcessingRef ∨ trimmedText = "" ∨ trimmedText = s.lastProcessedTextRef then
    (s, [])
  else if trimmedText.length < 2 then
    (s, [])
  else
    ({ s with recProcessingRef := true, lastProcessedTextRef := trimmedText,
              pendingAnon :=
                if s.recVoiceModeRef then
                  s.pendingAnon ++ [AnonTask.dispatchTranscript trimmedText 100]
                else s.pendingAnon },
     if s.recognitionActive then [Effect.recStop] else [])

/-- restartListening (hook, lines 342-363): clear both ref-stored timers,
reset the processing state, and store a 1500ms timer that will start
listening again if the hook is still in voice mode. -/
def restartListening (s : SysState) : SysState :=
  { s with silenceTimeout := none, recProcessingRef := false,
           lastProcessedTextRef := "", recTimeout := some 1500 }

/-- The timeoutRef callback of restartListening (hook, lines 358-362). -/
def recTimeoutFire (s : SysState) : SysState × List Effect :=
  match s.recTimeout with
  | none => (s, [])
  | some _ =>
    let s := { s with recTimeout := none }
    if s.recVoiceModeRef then startListeningVoice s else (s, [])

/-- The aggregation loop of onresult (hook, lines 186-201): returns the
new final text, the interim text, and the hasNewFinal flag. -/
def aggregateResults (results : List SpeechResult) : String × String × Bool :=
  results.foldl
    (fun acc r =>
      let t := jsTrim r.transcript
      if r.isFinal ∧ t ≠ "" then (acc.1 ++ t, acc.2.1, true)
      else if t ≠ "" then (acc.1, acc.2.1 ++ t, acc.2.2)
      else acc)
    ("", "", false)

/-- onresult (hook, lines 179-255): clear the auto-stop timer, extend the
final-transcript ref, update the displayed transcript, debounce a new
final result into silenceTimeoutRef (500ms mobile / 300ms desktop), and on
mobile also accept an interim result that looks complete (800ms). -/
def recOnResult (s : SysState) (results : List SpeechResult) :
    SysState × List Effect :=
  if s.recognitionActive = false then (s, []) else
  let agg := aggregateResults results
  let interimTranscript := agg.2.1
  let hasNewFinal := agg.2.2
  -- finalTranscriptRef.current += transcript, per final result (line 196)
  let newFinalRef := s.finalTranscriptRef ++ agg.1
  -- the displayed transcript (lines 204-208)
  let currentTranscript := newFinalRef ++ interimTranscript
  -- final results, debounced into silenceTimeoutRef (lines 211-228); the
  -- mobile interim heuristic then replaces the timer again (lines 231-254)
  let silence1 :=
    if hasNewFinal ∧ s.recVoiceModeRef = true ∧ s.recProcessingRef = false then
      let fullText := jsTrim newFinalRef
      if fullText ≠ "" ∧ fullText.length > 1 then
        some (fullText, if s.isMobile then 500 else 300)
      else s.silenceTimeout
    else s.silenceTimeout
  let silence2 :=
    if s.isMobile = true ∧ s.recVoiceModeRef = true ∧ s.recProcessingRef = false ∧
       interimTranscript ≠ "" then
      let fullText := jsTrim (newFinalRef ++ interimTranscript)
      if fullText.length > 3 ∧
         (jsEndsWith fullText "." ∨ jsEndsWith fullText "?" ∨
          jsEndsWith fullText "!" ∨ fullText.length > 10) then
        some (fullText, 800)
      else silence1
    else silence1
  ({ s with autoStopArmed := false,
            finalTranscriptRef := newFinalRef,
            transcript := if currentTranscript ≠ "" then currentTranscript
                          else s.transcript,
            silenceTimeout := silence2 }, [])

/-- onend (hook, lines 257-277): clear the listening flag, drop the
recognizer and the auto-stop timer, keep the transcript for manual mode,
and schedule the anonymous 1000ms processing-flag reset. -/
def recOnEnd (s : SysState) : SysState × List Effect :=
  if s.recognitionActive = false then (s, []) else
  ({ s with isListening := false, recognitionActive := false,
            autoStopArmed := false,
            transcript := if s.recVoiceModeRef = false ∧ s.finalTranscriptRef ≠ ""
                          then s.finalTranscriptRef else s.transcript,
            pendingAnon := s.pendingAnon ++ [AnonTask.clearRecProcessing 1000] }, [])

/-- The silenceTimeoutRef callback (hook, lines 222-226 and 248-252):
process the captured text unless the processing flag was latched
meanwhile. -/
def silenceFire (s : SysState) : SysState × List Effect :=
  match s.silenceTimeout with
  | none => (s, [])
  | some td =>
    let s := { s with silenceTimeout := none }
    if s.recProcessingRef = false then processVoiceResult s td.1 else (s, [])

/-- The localized fallback error text of the App handlers. -/
def fallbackErrorMessage : String := "Üzgünüm, bir hata oluştu. Lütfen tekrar deneyin."

/-- handleVoiceConversation up to the await (App, lines 72-113): drop when
the processing latch is set; drop (and in voice mode restart listening)
when the trimmed text is shorter than 2 characters; otherwise latch, reset
the transcript, append the user message, set loading, stop playback, and
issue the remote chat call. -/
def hvcPre (s : SysState) (spokenText : String) : SysState × List Effect :=
  if s.isProcessingVoiceRef then (s, [])
  else if jsTrim spokenText = "" ∨ (jsTrim spokenText).length < 2 then
    (if s.voiceModeRef then (restartListening s, []) else (s, []))
  else
    let userMessage : ChatMessage :=
      { id := toString s.now, type := MsgType.user, message := spokenText,
        timestamp := s.now }
    ({ s with isProcessingVoiceRef := true,                     -- line 90
              transcript := "", finalTranscriptRef := "",       -- resetTranscript
              lastProcessedTextRef := "", recProcessingRef := false,
              currentUserSpeech := "",                          -- line 94
              messages := s.messages ++ [userMessage],          -- line 104
              isLoading := true,                                -- line 105
              isSpeaking := false, speakHasOnDone := false,     -- stopSpeaking
              inflight := s.inflight + 1 },                     -- the await begins
     [Effect.stopSpeak,
      Effect.sendChat spokenText "chat" "user-session-1" none false])

/-- handleVoiceConversation success continuation (App, lines 115-151 and
the finally of line 178): append the bot message; with non-empty text in
voice mode begin playback with a completion callback; with empty text in
voice mode release the latch and schedule the anonymous 1000ms restart;
outside voice mode just release the latch. -/
def hvcSuccess (s : SysState) (respId : Option String) (textResponse : String) :
    SysState × List Effect :=
  -- data.id || Date.now().toString() (line 116; an empty id is falsy)
  let botId := match respId with
    | some i => if i = "" then toString s.now else i
    | none => toString s.now
  let botMessage : ChatMessage :=
    { id := botId, type := MsgType.bot, message := textResponse, timestamp := s.now }
  let newMessages := s.messages ++ [botMessage]
  if textResponse ≠ "" ∧ s.voiceModeRef = true then
    -- speak the response with a completion callback (lines 125-140);
    -- the finally clears loading (line 178)
    ({ s with messages := newMessages, currentBotSpeech := textResponse,
              isSpeaking := true, speakHasOnDone := true, isLoading := false },
     [Effect.speakText textResponse true])
  else if s.voiceModeRef then
    -- no response text: release the latch, schedule the 1000ms restart
    ({ s with messages := newMessages, isProcessingVoiceRef := false,
              pendingAnon := s.pendingAnon ++ [AnonTask.appRestart 1000],
              isLoading := false }, [])
  else
    ({ s with messages := newMessages, isProcessingVoiceRef := false,
              isLoading := false }, [])

/-- handleVoiceConversation failure continuation (App, lines 153-179):
append the error text (the ChatApiError message, else the localized
fallback) as a bot message, release the latch, and in voice mode schedule
the anonymous 2000ms restart; finally clear loading. -/
def hvcError (s : SysState) (apiMessage : Option String) : SysState × List Effect :=
  let errorMessage := apiMessage.getD fallbackErrorMessage
  let botMessage : ChatMessage :=
    { id := toString s.now, type := MsgType.bot, message := errorMessage,
      timestamp := s.now }
  ({ s with messages := s.messages ++ [botMessage],              -- line 166
            isProcessingVoiceRef := false,                      -- line 169
            pendingAnon :=                                      -- lines 170-176
              if s.voiceModeRef then s.pendingAnon ++ [AnonTask.appRestart 2000]
              else s.pendingAnon,
            isLoading := false }, [])                           -- finally, line 178

/-- Playback completion in a voice turn (synthesis end plus the onDone
callback of App lines 128-140): clear the bot speech, release the latch,
and in voice mode schedule the anonymous 500ms restart. -/
def voiceSpeakDone (s : SysState) : SysState × List Effect :=
  ({ s with isSpeaking := false, speakHasOnDone := false,
            currentBotSpeech := "", isProcessingVoiceRef := false,
            pendingAnon :=
              if s.voiceModeRef then s.pendingAnon ++ [AnonTask.appRestart 500]
              else s.pendingAnon }, [])

/-- The body shared by the three anonymous restart timers of the App
(lines 134-138, 144-148, 171-175): restart listening if voice mode is
still on and the latch is clear. -/
def appRestartFire (s : SysState) : SysState × List Effect :=
  if s.voiceModeRef = true ∧ s.isProcessingVoiceRef = false then (restartListening s, [])
  else (s, [])

/-- handleVoiceToggle (App, lines 292-316).  The stop branch inlines
stopListening (with its cleanup) and stopSpeaking; the start branch
inlines resetTranscript and startListeningVoice (cleanup, flags,
onstart). -/
def handleVoiceToggle (s : SysState) : SysState × List Effect :=
  if s.isVoiceMode then
    ({ s with isVoiceMode := false, voiceModeRef := false,
              isProcessingVoiceRef := false,
              currentUserSpeech := "", currentBotSpeech := "",
              -- stopListening and its cleanup (hook lines 324-331, 54-69)
              recVoiceModeRef := false, recProcessingRef := false,
              lastProcessedTextRef := "",
              recTimeout := none, silenceTimeout := none,
              recognitionActive := false, isListening := false,
              -- stopSpeaking
              isSpeaking := false, speakHasOnDone := false },
     (if s.recognitionActive then [Effect.recAbort] else []) ++ [Effect.stopSpeak])
  else
    ({ s with isVoiceMode := true, voiceModeRef := true,
              isProcessingVoiceRef := false,
              currentUserSpeech := "", currentBotSpeech := "",
              -- resetTranscript, then startListeningVoice: its cleanup,
              -- the mode refs, and onstart
              transcript := "", finalTranscriptRef := "",
              lastProcessedTextRef := "", recProcessingRef := false,
              recTimeout := none, silenceTimeout := none,
              recVoiceModeRef := true, recognitionActive := true,
              isListening := true, autoStopArmed := s.isMobile },
     (if s.recognitionActive then [Effect.recAbort] else []) ++ [Effect.recStart])

/-- handleResetChat up to the await (App, lines 208-222): gated on the
loading flag; clears the message list, voice mode and turn state, stops
playback and listening, then issues the remote call with the reset flag. -/
def handleResetChatPre (s : SysState) : SysState × List Effect :=
  if s.isLoading then (s, [])
  else
    ({ s with messages := [], isVoiceMode := false, voiceModeRef := false,
              isProcessingVoiceRef := false,
              currentUserSpeech := "", currentBotSpeech := "",
              -- stopSpeaking
              isSpeaking := false, speakHasOnDone := false,
              -- stopListening and its cleanup
              recVoiceModeRef := false, recProcessingRef := false,
              recTimeout := none, silenceTimeout := none,
              recognitionActive := false, isListening := false,
              -- resetTranscript
              transcript := "", finalTranscriptRef := "",
              lastProcessedTextRef := "" },
     [Effect.stopSpeak] ++ (if s.recognitionActive then [Effect.recAbort] else []) ++
       [Effect.sendChat "" "chat" "user-session-1" none true])

/-- handleResetChat failure continuation (App, lines 223-225): only a
console log; no state change and no user-visible effect. -/
def handleResetChatOnError (s : SysState) : SysState × List Effect := (s, [])

/-- handleSendMessage up to the await (App, lines 228-255): reject when
the trimmed input is empty and there is no attachment; otherwise append
the user message, clear the input and the attachment, set loading, stop
playback, reset the transcript, and issue the remote call with the values
captured before clearing. -/
def handleSendMessagePre (s : SysState) : SysState × List Effect :=
  if jsTrim s.input = "" ∧ s.attachment = none then (s, [])
  else
    let userMessage : ChatMessage :=
      { id := toString s.now, type := MsgType.user, message := s.input,
        timestamp := s.now, attachment := s.attachment }
    -- the sendChatMessage call uses the input and attachment captured
    -- before clearing (local consts of the source function)
    ({ s with messages := s.messages ++ [userMessage],
              input := "", attachment := none, isLoading := true,
              -- stopSpeaking
              isSpeaking := false, speakHasOnDone := false,
              -- resetTranscript
              transcript := "", finalTranscriptRef := "",
              lastProcessedTextRef := "", recProcessingRef := false },
     [Effect.stopSpeak,
      Effect.sendChat s.input "chat" "user-session-1"
        (s.attachment.map (fun a => [a])) false])

/-- The manual-microphone effect of the App (lines 62-69): when not in
voice mode and not listening, a non-empty transcript is appended to the
input field and then reset. -/
def manualTranscriptToInput (s : SysState) : SysState :=
  if s.transcript ≠ "" ∧ s.isVoiceMode = false ∧ s.isListening = false then
    resetTranscript { s with input := s.input ++ s.transcript }
  else s

/-- The events the browser event loop can deliver to this component. -/
inductive Event
  | voiceToggle
  | speechResult (results : List SpeechResult)
  | speechEnded
  | silenceElapsed
  | recTimeoutElapsed
  | autoStopElapsed
  | taskElapsed (t : AnonTask)
  | chatResponse (respId : Option String) (textResponse : String)
  | chatFailure (apiMessage : Option String)
  | playbackDone
  deriving DecidableEq, Repr

/-- Run one anonymous task: the 100ms hand-off runs the captured
handleVoiceConversation callback, the restart timers run the shared
restart body, the 1000ms timer clears the hook's processing flag. -/
def anonTaskRun (s : SysState) (t : AnonTask) : SysState × List Effect :=
  match t with
  | AnonTask.dispatchTranscript text _ => hvcPre s text
  | AnonTask.appRestart _ => appRestartFire s
  | AnonTask.clearRecProcessing _ => ({ s with recProcessingRef := false }, [])

/-- Fire a scheduled anonymous task, if it is still pending. -/
def anonFire (s : SysState) (t : AnonTask) : SysState × List Effect :=
  if t ∈ s.pendingAnon then
    anonTaskRun { s with pendingAnon := s.pendingAnon.erase t } t
  else (s, [])

/-- One step of the event loop.  Network completions are only delivered
while a request is outstanding; playback completion only while an
utterance with a completion callback is playing. -/
def step (s : SysState) (e : Event) : SysState × List Effect :=
  let s := { s with now := s.now + 1 }
  match e with
  | Event.voiceToggle => handleVoiceToggle s
  | Event.speechResult results => recOnResult s results
  | Event.speechEnded => recOnEnd s
  | Event.silenceElapsed => silenceFire s
  | Event.recTimeoutElapsed => recTimeoutFire s
  | Event.autoStopElapsed => autoStopFire s
  | Event.taskElapsed t => anonFire s t
  | Event.chatResponse respId text =>
      if s.inflight > 0 then hvcSuccess { s with inflight := s.inflight - 1 } respId text
      else (s, [])
  | Event.chatFailure m =>
      if s.inflight > 0 then hvcError { s with inflight := s.inflight - 1 } m
      else (s, [])
  | Event.playbackDone =>
      if s.isSpeaking = true ∧ s.speakHasOnDone = true then voiceSpeakDone s
      else (s, [])

/-- Run a list of events, returning the final state. -/
def runState : SysState → List Event → SysState
  | s, [] => s
  | s, e :: evs => runState (step s e).1 evs

/-- Run a list of events, returning every emitted effect in order. -/
def runEffects : SysState → List Event → List Effect
  | _, [] => []
  | s, e :: evs => (step s e).2 ++ runEffects (step s e).1 evs

/-- The freshly mounted component. -/
def initState (isMobile : Bool) : SysState :=
  { messages := [], input := "", isLoading := false, attachment := none,
    autoSpeak := true, isVoiceMode := false, currentUserSpeech := "",
    currentBotSpeech := "", voiceModeRef := false, isProcessingVoiceRef := false,
    isListening := false, transcript := "", finalTranscriptRef := "",
    recVoiceModeRef := false, recProcessingRef := false, lastProcessedTextRef := "",
    recognitionActive := false, recTimeout := none, silenceTimeout := none,
    autoStopArmed := false, capturedIsListening := false,
    isSpeaking := false, speakHasOnDone := false,
    isMobile := isMobile, inflight := 0, pendingAnon := [], now := 0 }

/-- Is an effect a remote chat call? -/
def isSendChat : Effect → Bool
  | Effect.sendChat _ _ _ _ _ => true
  | _ => false

/-- Number of remote chat calls in an effect list. -/
def sendCount (effs : List Effect) : Nat := (effs.filter isSendChat).length

/-- Is an effect the start of a playback? -/
def isSpeakEffect : Effect → Bool
  | Effect.speakText _ _ => true
  | _ => false

/-- Number of playback starts in an effect list. -/
def speakCount (effs : List Effect) : Nat := (effs.filter isSpeakEffect).length

/-- The inductive invariant behind the one-turn-in-flight guarantee of a
voice session: at most one outstanding call; an outstanding call or a
playing utterance with a completion callback implies the App latch is
set; and the two never coexist. -/
def TurnInv (s : SysState) : Prop :=
  s.inflight ≤ 1 ∧
  (s.inflight = 1 → s.isProcessingVoiceRef = true) ∧
  (s.speakHasOnDone = true → s.isProcessingVoiceRef = true) ∧
  (s.inflight = 1 → s.speakHasOnDone = false)

instance : DecidablePred TurnInv := fun s => by unfold TurnInv; infer_instance

/-- No transcript hand-off is scheduled among the anonymous tasks. -/
def NoDispatchPending (ts : List AnonTask) : Bool :=
  ts.all fun t =>
    match t with
    | AnonTask.dispatchTranscript _ _ => false
    | _ => true

/-- A state of exited voice mode from which the voice loop can emit no
further remote call: all mode flags are off, the recognizer is gone, the
cancellable timers are clear, no playback completion callback is pending,
and no transcript hand-off is scheduled. -/
def Quiet (s : SysState) : Prop :=
  s.voiceModeRef = false ∧ s.isVoiceMode = false ∧ s.recVoiceModeRef = false ∧
  s.recognitionActive = false ∧ s.silenceTimeout = none ∧ s.recTimeout = none ∧
  s.speakHasOnDone = false ∧ NoDispatchPending s.pendingAnon = true

instance : DecidablePred Quiet := fun s => by unfold Quiet; infer_instance

/-- A final recognizer result, as delivered by the browser. -/
def finalResult (text : String) : SpeechResult :=
  { isFinal := true, transcript := text }

/-- The events of entering voice mode and completing the accept phase of
one turn on desktop: toggle on, one final result, the silence debounce
firing, the recognizer ending after its stop() call, and the 100ms
hand-off firing, which issues the remote call. -/
def turnPrefix (text : String) : List Event :=
  [Event.voiceToggle, Event.speechResult [finalResult text],
   Event.silenceElapsed, Event.speechEnded,
   Event.taskElapsed (AnonTask.dispatchTranscript text 100)]

/-- Toggling voice mode off and back on while the first turn's remote
call is still outstanding, then accepting a second turn. -/
def c1Trace : List Event :=
  turnPrefix "merhaba nasılsın" ++ [Event.voiceToggle] ++ turnPrefix "iyi misin"

/-- A turn whose 100ms transcript hand-off is still pending when voice
mode is toggled off. -/
def c2Pre : List Event :=
  [Event.voiceToggle, Event.speechResult [finalResult "merhaba nasılsın"],
   Event.silenceElapsed, Event.voiceToggle]

/-- The pending hand-off of c2Pre firing after the toggle. -/
def c2Dispatch : Event :=
  Event.taskElapsed (AnonTask.dispatchTranscript "merhaba nasılsın" 100)

/-- One voice turn whose remote call fails, followed by the 2000ms
restart timer firing. -/
def c4Trace : List Event :=
  turnPrefix "merhaba nasılsın" ++
    [Event.chatFailure none, Event.taskElapsed (AnonTask.appRestart 2000)]

/-- One successful voice turn with playback, followed by the 500ms
settle timer firing. -/
def c5Trace : List Event :=
  turnPrefix "merhaba nasılsın" ++
    [Event.chatResponse none "İyi günler", Event.playbackDone,
     Event.taskElapsed (AnonTask.appRestart 500)]

/-- Claim C3: a voice transcript whose trimmed text is shorter than 2
characters triggers no remote chat call: processVoiceResult drops it
outright, and handleVoiceConversation drops it without a sendChat effect,
restarting listening when voice mode is active and the latch clear. -/
theorem C3_short_transcript_no_send (s : SysState) (text : String)
    (h : (jsTrim text).length < 2) :
    processVoiceResult s text = (s, []) ∧
    sendCount (hvcPre s text).2 = 0 ∧
    (s.isProcessingVoiceRef = false → s.voiceModeRef = true →
      hvcPre s text = (restartListening s, []) ∧
      (restartListening s).recTimeout = some 1500) := by
  refine ⟨?_, ?_, ?_⟩
  · simp only [processVoiceResult]
    split_ifs with h1
    · rfl
    · rfl
  · unfold hvcPre
    split_ifs <;> simp_all [sendCount, isSendChat]
  · intro hp hv
    unfold hvcPre
    rw [if_neg (by simp [hp]), if_pos (Or.inr h), if_pos (by simp [hv])]
    exact ⟨rfl, rfl⟩

/-- Witness for C3 at the one-character transcript "a" in an active
voice-mode state with a clear latch. -/
theorem C3_short_transcript_no_send_witness :
    ((jsTrim "a").length < 2) ∧
    (processVoiceResult { initState false with voiceModeRef := true } "a" =
      ({ initState false with voiceModeRef := true }, []) ∧
     sendCount (hvcPre { initState false with voiceModeRef := true } "a").2 = 0 ∧
     (({ initState false with voiceModeRef := true } : SysState).isProcessingVoiceRef = false →
      ({ initState false with voiceModeRef := true } : SysState).voiceModeRef = true →
       hvcPre { initState false with voiceModeRef := true } "a" =
         (restartListening { initState false with voiceModeRef := true }, []) ∧
       (restartListening { initState false with voiceModeRef := true }).recTimeout =
         some 1500)) :=
  ⟨by decide,
   C3_short_transcript_no_send { initState false with voiceModeRef := true } "a" (by decide)⟩

/-- Claim C7: sending with only an attachment (blank text) or with only
non-blank text is accepted (user message appended, one remote call);
sending with neither is rejected with no state change and no effect. -/
theorem C7_send_guard :
    (∀ s : SysState, jsTrim s.input = "" → s.attachment = none →
       handleSendMessagePre s = (s, [])) ∧
    (∀ s : SysState, s.attachment ≠ none ∨ jsTrim s.input ≠ "" →
       (handleSendMessagePre s).1.messages =
         s.messages ++ [{ id := toString s.now, type := MsgType.user,
                          message := s.input, timestamp := s.now,
                          attachment := s.attachment }] ∧
       sendCount (handleSendMessagePre s).2 = 1 ∧
       Effect.sendChat s.input "chat" "user-session-1"
           (s.attachment.map (fun a => [a])) false ∈ (handleSendMessagePre s).2) := by
  constructor
  · intro s h1 h2
    unfold handleSendMessagePre
    rw [if_pos ⟨h1, h2⟩]
  · intro s h
    have hg : ¬(jsTrim s.input = "" ∧ s.attachment = none) := by
      rintro ⟨h1, h2⟩
      rcases h with h | h
      · exact h h2
      · exact h h1
    unfold handleSendMessagePre
    rw [if_neg hg]
    refine ⟨?_, ?_, ?_⟩ <;> simp [stopSpeaking, resetTranscript, sendCount, isSendChat]

/-- Witness for C7: the rejection case at blank input without attachment,
and the acceptance case at input "merhaba" without attachment. -/
theorem C7_send_guard_witness :
    handleSendMessagePre { initState false with input := "  " } =
      ({ initState false with input := "  " }, []) ∧
    sendCount (handleSendMessagePre { initState false with input := "merhaba" }).2 = 1 :=
  ⟨C7_send_guard.1 { initState false with input := "  " } (by decide) rfl,
   (C7_send_guard.2 { initState false with input := "merhaba" }
      (Or.inr (by decide))).2.1⟩

/-- Claim C8: when not gated by the loading flag, the reset operation
clears the message list to empty and issues a remote request whose reset
flag is true. -/
theorem C8_reset (s : SysState) (h : s.isLoading = false) :
    (handleResetChatPre s).1.messages = [] ∧
    Effect.sendChat "" "chat" "user-session-1" none true ∈ (handleResetChatPre s).2 := by
  unfold handleResetChatPre
  rw [if_neg (by simp [h])]
  constructor
  · simp [stopSpeaking, stopListening, cleanup, resetTranscript]
  · simp [stopSpeaking, stopListening, cleanup, resetTranscript]

/-- Witness for C8 at the freshly mounted state. -/
theorem C8_reset_witness :
    (handleResetChatPre (initState false)).1.messages = [] ∧
    Effect.sendChat "" "chat" "user-session-1" none true ∈
      (handleResetChatPre (initState false)).2 :=
  C8_reset (initState false) rfl

/-- Claim C9: in manual (non-voice) microphone mode, when listening has
stopped with a non-empty transcript, the transcript is appended to the end
of the current input field (existing text preserved) and then reset. -/
theorem C9_manual_transcript_append (s : SysState) (h1 : s.transcript ≠ "")
    (h2 : s.isVoiceMode = false) (h3 : s.isListening = false) :
    (manualTranscriptToInput s).input = s.input ++ s.transcript ∧
    (manualTranscriptToInput s).transcript = "" := by
  unfold manualTranscriptToInput
  rw [if_pos ⟨h1, h2, h3⟩]
  exact ⟨rfl, rfl⟩

/-- Witness for C9 at typed text "not: " and transcript "merhaba". -/
theorem C9_manual_transcript_append_witness :
    (manualTranscriptToInput
        { initState false with input := "not: ", transcript := "merhaba" }).input =
      "not: " ++ "merhaba" ∧
    (manualTranscriptToInput
        { initState false with input := "not: ", transcript := "merhaba" }).transcript = "" :=
  C9_manual_transcript_append
    { initState false with input := "not: ", transcript := "merhaba" }
    (by decide) rfl rfl

/-- Claim C10: reset is gated on the loading flag (loading means no change
and nothing sent); otherwise local state (message list, voice mode, turn
state) is cleared in the same synchronous phase that emits the reset
request, and a failure of that request changes nothing and surfaces no
effect to the user. -/
theorem C10_reset_gating :
    (∀ s : SysState, s.isLoading = true → handleResetChatPre s = (s, [])) ∧
    (∀ s : SysState, s.isLoading = false →
       (handleResetChatPre s).1.messages = [] ∧
       (handleResetChatPre s).1.isVoiceMode = false ∧
       (handleResetChatPre s).1.voiceModeRef = false ∧
       (handleResetChatPre s).1.isProcessingVoiceRef = false ∧
       (handleResetChatPre s).1.currentUserSpeech = "" ∧
       (handleResetChatPre s).1.currentBotSpeech = "" ∧
       (handleResetChatPre s).1.isSpeaking = false ∧
       (handleResetChatPre s).1.isListening = false ∧
       (handleResetChatPre s).1.transcript = "" ∧
       Effect.sendChat "" "chat" "user-session-1" none true ∈ (handleResetChatPre s).2) ∧
    (∀ s : SysState, handleResetChatOnError s = (s, [])) := by
  refine ⟨?_, ?_, fun _ => rfl⟩
  · intro s h
    unfold handleResetChatPre
    rw [if_pos (by simp [h])]
  · intro s h
    unfold handleResetChatPre
    rw [if_neg (by simp [h])]
    simp [stopSpeaking, stopListening, cleanup, resetTranscript]


theorem noDispatchPending_erase (ts : List AnonTask) (t : AnonTask)
    (h : NoDispatchPending ts = true) : NoDispatchPending (ts.erase t) = true := by
  simp only [NoDispatchPending, List.all_eq_true] at h ⊢
  exact fun x hx => h x (List.mem_of_mem_erase hx)

theorem noDispatchPending_not_mem (ts : List AnonTask) (text : String) (d : Nat)
    (h : NoDispatchPending ts = true) : AnonTask.dispatchTranscript text d ∉ ts := by
  intro hm
  have := (List.all_eq_true.mp h) _ hm
  simp at this

theorem hvcPre_turnInv (s : SysState) (text : String) (h : TurnInv s) :
    TurnInv (hvcPre s text).1 := by
  obtain ⟨h1, h2, h3, h4⟩ := h
  simp only [hvcPre]
  split_ifs with hp hs hv
  · exact ⟨h1, h2, h3, h4⟩
  · exact ⟨h1, h2, h3, h4⟩
  · exact ⟨h1, h2, h3, h4⟩
  · have h0 : s.inflight = 0 := by
      rcases Nat.eq_or_lt_of_le h1 with he | hlt
      · exact absurd (h2 he) (by simpa using hp)
      · omega
    exact ⟨by show s.inflight + 1 ≤ 1; omega,
           fun _ => rfl, fun _ => rfl, fun _ => rfl⟩

theorem turnInv_processVoiceResult (s : SysState) (text : String) (h : TurnInv s) :
    TurnInv (processVoiceResult s text).1 := by
  obtain ⟨h1, h2, h3, h4⟩ := h
  simp only [processVoiceResult]
  split_ifs <;> exact ⟨h1, h2, h3, h4⟩

theorem turnInv_recOnResult (s : SysState) (rs : List SpeechResult) (h : TurnInv s) :
    TurnInv (recOnResult s rs).1 := by
  obtain ⟨h1, h2, h3, h4⟩ := h
  simp only [recOnResult]
  split_ifs <;> exact ⟨h1, h2, h3, h4⟩

theorem turnInv_recOnEnd (s : SysState) (h : TurnInv s) :
    TurnInv (recOnEnd s).1 := by
  obtain ⟨h1, h2, h3, h4⟩ := h
  simp only [recOnEnd]
  split_ifs <;> exact ⟨h1, h2, h3, h4⟩

theorem turnInv_silenceFire (s : SysState) (h : TurnInv s) :
    TurnInv (silenceFire s).1 := by
  cases hsil : s.silenceTimeout with
  | none =>
    simp only [silenceFire, hsil]
    exact h
  | some td =>
    simp only [silenceFire, hsil]
    split_ifs with hpr
    · exact turnInv_processVoiceResult _ td.1 ⟨h.1, h.2.1, h.2.2.1, h.2.2.2⟩
    · exact ⟨h.1, h.2.1, h.2.2.1, h.2.2.2⟩

theorem turnInv_startListeningVoice (s : SysState) (h : TurnInv s) :
    TurnInv (startListeningVoice s).1 := by
  obtain ⟨h1, h2, h3, h4⟩ := h
  simp only [startListeningVoice, cleanup]
  exact ⟨h1, h2, h3, h4⟩

theorem turnInv_recTimeoutFire (s : SysState) (h : TurnInv s) :
    TurnInv (recTimeoutFire s).1 := by
  cases hr : s.recTimeout with
  | none =>
    simp only [recTimeoutFire, hr]
    exact h
  | some d =>
    simp only [recTimeoutFire, hr]
    split_ifs with hv
    · exact turnInv_startListeningVoice _ ⟨h.1, h.2.1, h.2.2.1, h.2.2.2⟩
    · exact ⟨h.1, h.2.1, h.2.2.1, h.2.2.2⟩

theorem turnInv_autoStopFire (s : SysState) (h : TurnInv s) :
    TurnInv (autoStopFire s).1 := by
  obtain ⟨h1, h2, h3, h4⟩ := h
  simp only [autoStopFire]
  split_ifs <;> exact ⟨h1, h2, h3, h4⟩

theorem turnInv_appRestartFire (s : SysState) (h : TurnInv s) :
    TurnInv (appRestartFire s).1 := by
  obtain ⟨h1, h2, h3, h4⟩ := h
  simp only [appRestartFire, restartListening]
  split_ifs <;> exact ⟨h1, h2, h3, h4⟩

theorem turnInv_step (s : SysState) (e : Event) (h : TurnInv s)
    (hne : e ≠ Event.voiceToggle) : TurnInv (step s e).1 := by
  obtain ⟨h1, h2, h3, h4⟩ := h
  have h' : TurnInv { s with now := s.now + 1 } := ⟨h1, h2, h3, h4⟩
  cases e with
  | voiceToggle => exact absurd rfl hne
  | speechResult rs => exact turnInv_recOnResult _ rs h'
  | speechEnded => exact turnInv_recOnEnd _ h'
  | silenceElapsed => exact turnInv_silenceFire _ h'
  | recTimeoutElapsed => exact turnInv_recTimeoutFire _ h'
  | autoStopElapsed => exact turnInv_autoStopFire _ h'
  | taskElapsed t =>
    show TurnInv (anonFire { s with now := s.now + 1 } t).1
    simp only [anonFire]
    split_ifs with hm
    · cases t with
      | dispatchTranscript text d =>
        exact hvcPre_turnInv _ text ⟨h1, h2, h3, h4⟩
      | appRestart d =>
        exact turnInv_appRestartFire _ ⟨h1, h2, h3, h4⟩
      | clearRecProcessing d =>
        exact ⟨h1, h2, h3, h4⟩
    · exact h'
  | chatResponse rid text =>
    show TurnInv (if ({ s with now := s.now + 1 } : SysState).inflight > 0
        then hvcSuccess { s with now := s.now + 1, inflight := s.inflight - 1 } rid text
        else ({ s with now := s.now + 1 }, [])).1
    split_ifs with hi
    · have hi' : s.inflight > 0 := hi
      have hone : s.inflight = 1 := Nat.le_antisymm h1 hi'
      have hp : s.isProcessingVoiceRef = true := h2 hone
      have hd : s.speakHasOnDone = false := h4 hone
      simp only [hvcSuccess]
      split_ifs with hb hv
      · exact ⟨by show s.inflight - 1 ≤ 1; omega,
               fun _ => hp, fun _ => hp,
               fun hx => absurd (show s.inflight - 1 = 1 from hx) (by omega)⟩
      · exact ⟨by show s.inflight - 1 ≤ 1; omega,
               fun hx => absurd (show s.inflight - 1 = 1 from hx) (by omega),
               fun hy => absurd (show s.speakHasOnDone = true from hy) (by simp [hd]),
               fun _ => hd⟩
      · exact ⟨by show s.inflight - 1 ≤ 1; omega,
               fun hx => absurd (show s.inflight - 1 = 1 from hx) (by omega),
               fun hy => absurd (show s.speakHasOnDone = true from hy) (by simp [hd]),
               fun _ => hd⟩
    · exact h'
  | chatFailure m =>
    show TurnInv (if ({ s with now := s.now + 1 } : SysState).inflight > 0
        then hvcError { s with now := s.now + 1, inflight := s.inflight - 1 } m
        else ({ s with now := s.now + 1 }, [])).1
    split_ifs with hi
    · have hone : s.inflight = 1 := Nat.le_antisymm h1 hi
      have hd : s.speakHasOnDone = false := h4 hone
      simp only [hvcError]
      exact ⟨by show s.inflight - 1 ≤ 1; omega,
             fun hx => absurd (show s.inflight - 1 = 1 from hx) (by omega),
             fun hy => absurd (show s.speakHasOnDone = true from hy) (by simp [hd]),
             fun _ => hd⟩
    · exact h'
  | playbackDone =>
    show TurnInv (if ({ s with now := s.now + 1 } : SysState).isSpeaking = true ∧
          ({ s with now := s.now + 1 } : SysState).speakHasOnDone = true
        then voiceSpeakDone { s with now := s.now + 1 }
        else ({ s with now := s.now + 1 }, [])).1
    split_ifs with hsp
    · have hd : s.speakHasOnDone = true := hsp.2
      have hne1 : s.inflight ≠ 1 := fun he => by simp [h4 he] at hd
      simp only [voiceSpeakDone]
      exact ⟨h1,
             fun hx => absurd (show s.inflight = 1 from hx) hne1,
             fun hy => absurd (show (false : Bool) = true from hy) (by decide),
             fun _ => rfl⟩
    · exact h'

theorem turnInv_run (s : SysState) (evs : List Event) (h : TurnInv s)
    (hnt : ∀ e ∈ evs, e ≠ Event.voiceToggle) : TurnInv (runState s evs) := by
  induction evs generalizing s with
  | nil => exact h
  | cons e evs ih =>
    exact ih _ (turnInv_step s e h (hnt e (List.mem_cons_self e evs)))
      (fun e' he' => hnt e' (List.mem_cons_of_mem e he'))

theorem silenceFire_none (s : SysState) (h : s.silenceTimeout = none) :
    silenceFire s = (s, []) := by
  simp only [silenceFire, h]

theorem recTimeoutFire_none (s : SysState) (h : s.recTimeout = none) :
    recTimeoutFire s = (s, []) := by
  simp only [recTimeoutFire, h]

theorem quiet_step (s : SysState) (e : Event) (hq : Quiet s)
    (hne : e ≠ Event.voiceToggle) :
    Quiet (step s e).1 ∧ sendCount (step s e).2 = 0 := by
  obtain ⟨q1, q2, q3, q4, q5, q6, q7, q8⟩ := hq
  have hnow : Quiet { s with now := s.now + 1 } := ⟨q1, q2, q3, q4, q5, q6, q7, q8⟩
  cases e with
  | voiceToggle => exact absurd rfl hne
  | speechResult rs =>
    have hg : ({ s with now := s.now + 1 } : SysState).recognitionActive = false := q4
    constructor
    · show Quiet (recOnResult { s with now := s.now + 1 } rs).1
      rw [recOnResult, if_pos hg]
      exact hnow
    · show sendCount (recOnResult { s with now := s.now + 1 } rs).2 = 0
      rw [recOnResult, if_pos hg]
      rfl
  | speechEnded =>
    have hg : ({ s with now := s.now + 1 } : SysState).recognitionActive = false := q4
    constructor
    · show Quiet (recOnEnd { s with now := s.now + 1 }).1
      rw [recOnEnd, if_pos hg]
      exact hnow
    · show sendCount (recOnEnd { s with now := s.now + 1 }).2 = 0
      rw [recOnEnd, if_pos hg]
      rfl
  | silenceElapsed =>
    have hz := silenceFire_none { s with now := s.now + 1 } q5
    constructor
    · show Quiet (silenceFire { s with now := s.now + 1 }).1
      rw [hz]
      exact hnow
    · show sendCount (silenceFire { s with now := s.now + 1 }).2 = 0
      rw [hz]
      rfl
  | recTimeoutElapsed =>
    have hz := recTimeoutFire_none { s with now := s.now + 1 } q6
    constructor
    · show Quiet (recTimeoutFire { s with now := s.now + 1 }).1
      rw [hz]
      exact hnow
    · show sendCount (recTimeoutFire { s with now := s.now + 1 }).2 = 0
      rw [hz]
      rfl
  | autoStopElapsed =>
    show Quiet (autoStopFire { s with now := s.now + 1 }).1 ∧
      sendCount (autoStopFire { s with now := s.now + 1 }).2 = 0
    simp only [autoStopFire]
    split_ifs with ha hr
    · exact absurd (show s.recognitionActive = true by
        have := hr; simp only [q4, Bool.false_and] at this; exact absurd this (by decide))
        (by simp [q4])
    · exact ⟨⟨q1, q2, q3, q4, q5, q6, q7, q8⟩, rfl⟩
    · exact ⟨hnow, rfl⟩
  | taskElapsed t =>
    show Quiet (anonFire { s with now := s.now + 1 } t).1 ∧
      sendCount (anonFire { s with now := s.now + 1 } t).2 = 0
    cases t with
    | dispatchTranscript text d =>
      have hnm : AnonTask.dispatchTranscript text d ∉ s.pendingAnon :=
        noDispatchPending_not_mem s.pendingAnon text d q8
      rw [anonFire, if_neg (by exact hnm)]
      exact ⟨hnow, rfl⟩
    | appRestart d =>
      rw [anonFire]
      split_ifs with hm
      · show Quiet (appRestartFire _).1 ∧ sendCount (appRestartFire _).2 = 0
        rw [appRestartFire, if_neg (by simp [q1])]
        exact ⟨⟨q1, q2, q3, q4, q5, q6, q7, noDispatchPending_erase _ _ q8⟩, rfl⟩
      · exact ⟨hnow, rfl⟩
    | clearRecProcessing d =>
      rw [anonFire]
      split_ifs with hm
      · exact ⟨⟨q1, q2, q3, q4, q5, q6, q7, noDispatchPending_erase _ _ q8⟩, rfl⟩
      · exact ⟨hnow, rfl⟩
  | chatResponse rid text =>
    show Quiet (if ({ s with now := s.now + 1 } : SysState).inflight > 0
        then hvcSuccess { s with now := s.now + 1, inflight := s.inflight - 1 } rid text
        else ({ s with now := s.now + 1 }, [])).1 ∧
      sendCount (if ({ s with now := s.now + 1 } : SysState).inflight > 0
        then hvcSuccess { s with now := s.now + 1, inflight := s.inflight - 1 } rid text
        else ({ s with now := s.now + 1 }, [])).2 = 0
    split_ifs with hi
    · rw [hvcSuccess.eq_def]
      simp only [q1]
      rw [if_neg (by simp), if_neg (by simp)]
      refine ⟨⟨?_, ?_, ?_, ?_, ?_, ?_, ?_, ?_⟩, rfl⟩ <;>
        first | rfl | assumption
    · exact ⟨hnow, rfl⟩
  | chatFailure m =>
    show Quiet (if ({ s with now := s.now + 1 } : SysState).inflight > 0
        then hvcError { s with now := s.now + 1, inflight := s.inflight - 1 } m
        else ({ s with now := s.now + 1 }, [])).1 ∧
      sendCount (if ({ s with now := s.now + 1 } : SysState).inflight > 0
        then hvcError { s with now := s.now + 1, inflight := s.inflight - 1 } m
        else ({ s with now := s.now + 1 }, [])).2 = 0
    split_ifs with hi
    · rw [hvcError.eq_def]
      simp only [q1]
      refine ⟨⟨?_, ?_, ?_, ?_, ?_, ?_, ?_, ?_⟩, rfl⟩ <;>
        first | rfl | assumption
    · exact ⟨hnow, rfl⟩
  | playbackDone =>
    show Quiet (if ({ s with now := s.now + 1 } : SysState).isSpeaking = true ∧
          ({ s with now := s.now + 1 } : SysState).speakHasOnDone = true
        then voiceSpeakDone { s with now := s.now + 1 }
        else ({ s with now := s.now + 1 }, [])).1 ∧
      sendCount (if ({ s with now := s.now + 1 } : SysState).isSpeaking = true ∧
          ({ s with now := s.now + 1 } : SysState).speakHasOnDone = true
        then voiceSpeakDone { s with now := s.now + 1 }
        else ({ s with now := s.now + 1 }, [])).2 = 0
    split_ifs with hsp
    · exact absurd (show s.speakHasOnDone = true from hsp.2) (by simp [q7])
    · exact ⟨hnow, rfl⟩

theorem quiet_run (s : SysState) (evs : List Event) (hq : Quiet s)
    (hnt : ∀ e ∈ evs, e ≠ Event.voiceToggle) :
    Quiet (runState s evs) ∧ sendCount (runEffects s evs) = 0 := by
  induction evs generalizing s with
  | nil => exact ⟨hq, rfl⟩
  | cons e evs ih =>
    have hstep := quiet_step s e hq (hnt e (List.mem_cons_self e evs))
    have hrest := ih (step s e).1 hstep.1 (fun e' he' => hnt e' (List.mem_cons_of_mem e he'))
    refine ⟨hrest.1, ?_⟩
    have h2 := hstep.2
    have h3 := hrest.2
    simp only [runEffects, sendCount, List.filter_append, List.length_append] at h2 h3 ⊢
    omega


/-- Witness for C10: the gated case at a loading state, and the cleared
message list in the non-loading case. -/
theorem C10_reset_gating_witness :
    handleResetChatPre { initState false with isLoading := true } =
      ({ initState false with isLoading := true }, []) ∧
    (handleResetChatPre { initState false with isVoiceMode := true }).1.messages = [] :=
  ⟨C10_reset_gating.1 { initState false with isLoading := true } rfl,
   (C10_reset_gating.2.1 { initState false with isVoiceMode := true } rfl).1⟩

/-- Counterexample to claim C1 as stated: after toggling voice mode off
and back on while a turn's remote call is still outstanding, a second
transcript is accepted (the latch was reset by the toggle) and a second
remote call is issued, reaching a voice-mode state with two calls in
flight. -/
theorem C1_counterexample :
    (runState (initState false) c1Trace).isVoiceMode = true ∧
    (runState (initState false) c1Trace).voiceModeRef = true ∧
    ¬((runState (initState false) c1Trace).inflight ≤ 1) := by decide

/-- Claim C1 (amended): the processing latch is checked before any
transcript is accepted, in both the App handler and the hook, and while
it is set a transcript is dropped with no state change and no remote
call; within any run of the event loop that never toggles voice mode,
a state satisfying the turn invariant (in particular the initial state)
keeps at most one remote chat call in flight at all times. -/
theorem C1_amended :
    (∀ (s : SysState) (text : String), s.isProcessingVoiceRef = true →
       hvcPre s text = (s, [])) ∧
    (∀ (s : SysState) (text : String), s.recProcessingRef = true →
       processVoiceResult s text = (s, [])) ∧
    (∀ (s : SysState) (evs : List Event), TurnInv s →
       (∀ e ∈ evs, e ≠ Event.voiceToggle) →
       (runState s evs).inflight ≤ 1) ∧
    (∀ m : Bool, TurnInv (initState m)) := by
  refine ⟨?_, ?_, ?_, ?_⟩
  · intro s text h
    unfold hvcPre
    rw [if_pos (by simp [h])]
  · intro s text h
    simp only [processVoiceResult]
    rw [if_pos (Or.inl h)]
  · intro s evs h hnt
    exact (turnInv_run s evs h hnt).1
  · intro m
    refine ⟨Nat.zero_le 1, ?_, ?_, ?_⟩
    · intro hx
      exact absurd hx (by simp [initState])
    · intro hy
      exact absurd hy (by simp [initState])
    · intro _
      rfl

/-- Witness for C1 (amended) at concrete states: a set latch drops the
transcript "merhaba" in both functions, and a short desktop run stays
within one in-flight call. -/
theorem C1_amended_witness :
    hvcPre { initState false with isProcessingVoiceRef := true } "merhaba" =
      ({ initState false with isProcessingVoiceRef := true }, []) ∧
    processVoiceResult { initState false with recProcessingRef := true } "merhaba" =
      ({ initState false with recProcessingRef := true }, []) ∧
    (runState (runState (initState false) [Event.voiceToggle])
      [Event.speechResult [finalResult "merhaba nasılsın"], Event.silenceElapsed,
       Event.speechEnded,
       Event.taskElapsed (AnonTask.dispatchTranscript "merhaba nasılsın" 100)]).inflight
      ≤ 1 ∧
    TurnInv (initState false) :=
  ⟨C1_amended.1 _ "merhaba" rfl,
   C1_amended.2.1 _ "merhaba" rfl,
   C1_amended.2.2.1 (runState (initState false) [Event.voiceToggle])
     [Event.speechResult [finalResult "merhaba nasılsın"], Event.silenceElapsed,
      Event.speechEnded,
      Event.taskElapsed (AnonTask.dispatchTranscript "merhaba nasılsın" 100)]
     (by decide) (by decide),
   C1_amended.2.2.2 false⟩

/-- Counterexample to claim C2 as stated: the 100ms transcript hand-off
scheduled by processVoiceResult is stored in no ref, so toggling voice
mode off does not cancel it; when it fires after the toggle it passes the
(freshly cleared) latch check and issues a remote chat call. -/
theorem C2_counterexample :
    (runState (initState false) c2Pre).isVoiceMode = false ∧
    (runState (initState false) c2Pre).voiceModeRef = false ∧
    sendCount (runEffects (runState (initState false) c2Pre) [c2Dispatch]) = 1 := by
  decide

/-- Claim C2 (amended): toggling voice mode off immediately stops
playback, aborts any active recognition, and clears the turn state
(listening and speaking flags, user and bot speech transcripts, the
latch), and the toggle itself issues no remote call; provided no 100ms
transcript hand-off was already scheduled, the resulting state is quiet
and no sequence of further events (without re-toggling) can issue a
remote chat call. -/
theorem C2_amended :
    (∀ s : SysState, s.isVoiceMode = true →
       (step s Event.voiceToggle).1.isListening = false ∧
       (step s Event.voiceToggle).1.isSpeaking = false ∧
       (step s Event.voiceToggle).1.currentUserSpeech = "" ∧
       (step s Event.voiceToggle).1.currentBotSpeech = "" ∧
       (step s Event.voiceToggle).1.isProcessingVoiceRef = false ∧
       (step s Event.voiceToggle).1.recognitionActive = false ∧
       Effect.stopSpeak ∈ (step s Event.voiceToggle).2 ∧
       (s.recognitionActive = true → Effect.recAbort ∈ (step s Event.voiceToggle).2) ∧
       sendCount (step s Event.voiceToggle).2 = 0) ∧
    (∀ s : SysState, s.isVoiceMode = true →
       NoDispatchPending s.pendingAnon = true →
       Quiet (step s Event.voiceToggle).1) ∧
    (∀ (s : SysState) (evs : List Event), Quiet s →
       (∀ e ∈ evs, e ≠ Event.voiceToggle) →
       sendCount (runEffects s evs) = 0) := by
  refine ⟨?_, ?_, ?_⟩
  · intro s h
    show _ ∧ _
    simp only [step, handleVoiceToggle]
    rw [if_pos (show ({ s with now := s.now + 1 } : SysState).isVoiceMode = true from h)]
    refine ⟨rfl, rfl, rfl, rfl, rfl, rfl, by simp, ?_, ?_⟩
    · intro hrec
      simp [show s.recognitionActive = true from hrec]
    · simp only [sendCount]
      split_ifs <;> rfl
  · intro s h hnd
    show Quiet (handleVoiceToggle { s with now := s.now + 1 }).1
    simp only [handleVoiceToggle]
    rw [if_pos (show ({ s with now := s.now + 1 } : SysState).isVoiceMode = true from h)]
    exact ⟨rfl, rfl, rfl, rfl, rfl, rfl, rfl, hnd⟩
  · intro s evs hq hnt
    exact (quiet_run s evs hq hnt).2

/-- Witness for C2 (amended): toggling off an active voice-mode state
clears it and yields a quiet state, and from the quiet initial state a
silence-timer event sends nothing. -/
theorem C2_amended_witness :
    (step { initState false with isVoiceMode := true } Event.voiceToggle).1.isListening =
      false ∧
    Quiet (step { initState false with isVoiceMode := true } Event.voiceToggle).1 ∧
    sendCount (runEffects (initState false) [Event.silenceElapsed]) = 0 :=
  ⟨(C2_amended.1 { initState false with isVoiceMode := true } rfl).1,
   C2_amended.2.1 { initState false with isVoiceMode := true } rfl (by decide),
   C2_amended.2.2 (initState false) [Event.silenceElapsed] (by decide) (by decide)⟩

/-- Counterexample to claim C4 as stated: 2000ms after the failed call
(the restart timer has fired) the system is still not listening; the
restart helper only stored a further 1500ms timer. -/
theorem C4_counterexample :
    (runState (initState false) c4Trace).voiceModeRef = true ∧
    (runState (initState false) c4Trace).isListening = false ∧
    (runState (initState false) c4Trace).recognitionActive = false ∧
    (runState (initState false) c4Trace).recTimeout = some 1500 := by decide

/-- Claim C4 (amended): when the remote chat call of a voice turn fails,
the error is caught and appended to the transcript as a bot message (the
ChatApiError message, else the localized fallback), the processing guard
is released, loading is cleared, and, while voice mode remains active, a
listening restart is scheduled after a 2000ms delay; the restart helper
that then runs starts recognition only after its own further fixed 1500ms
delay, after which the recognizer is started and listening resumes.  The
turn is never abandoned. -/
theorem C4_amended :
    (∀ (s : SysState) (apiMessage : Option String),
       (hvcError s apiMessage).1.messages =
         s.messages ++ [{ id := toString s.now, type := MsgType.bot,
                          message := apiMessage.getD fallbackErrorMessage,
                          timestamp := s.now }] ∧
       (hvcError s apiMessage).1.isProcessingVoiceRef = false ∧
       (hvcError s apiMessage).1.isLoading = false ∧
       (hvcError s apiMessage).2 = [] ∧
       (s.voiceModeRef = true →
         AnonTask.appRestart 2000 ∈ (hvcError s apiMessage).1.pendingAnon)) ∧
    (∀ s : SysState, s.voiceModeRef = true → s.isProcessingVoiceRef = false →
       appRestartFire s = (restartListening s, []) ∧
       (restartListening s).recTimeout = some 1500) ∧
    (∀ s : SysState, s.recTimeout ≠ none → s.recVoiceModeRef = true →
       (recTimeoutFire s).1.isListening = true ∧
       (recTimeoutFire s).1.recognitionActive = true ∧
       Effect.recStart ∈ (recTimeoutFire s).2) := by
  refine ⟨?_, ?_, ?_⟩
  · intro s m
    refine ⟨rfl, rfl, rfl, rfl, ?_⟩
    intro hv
    show AnonTask.appRestart 2000 ∈
      (if s.voiceModeRef then s.pendingAnon ++ [AnonTask.appRestart 2000]
       else s.pendingAnon)
    simp [hv]
  · intro s hv hp
    rw [appRestartFire, if_pos ⟨hv, hp⟩]
    exact ⟨rfl, rfl⟩
  · intro s hr hv
    cases hrt : s.recTimeout with
    | none => exact absurd hrt hr
    | some d =>
      simp only [recTimeoutFire, hrt]
      rw [if_pos (show ({ s with recTimeout := none } : SysState).recVoiceModeRef = true
        from hv)]
      refine ⟨rfl, rfl, ?_⟩
      show Effect.recStart ∈ _ ++ [Effect.recStart]
      simp

/-- Witness for C4 (amended) at a voice-mode state with a pending 1500ms
restart timer. -/
theorem C4_amended_witness :
    (hvcError { initState false with voiceModeRef := true } none).1.isProcessingVoiceRef =
      false ∧
    AnonTask.appRestart 2000 ∈
      (hvcError { initState false with voiceModeRef := true } none).1.pendingAnon ∧
    appRestartFire { initState false with voiceModeRef := true } =
      (restartListening { initState false with voiceModeRef := true }, []) ∧
    (recTimeoutFire { initState false with
        recVoiceModeRef := true, recTimeout := some 1500 }).1.isListening = true :=
  ⟨(C4_amended.1 { initState false with voiceModeRef := true } none).2.1,
   (C4_amended.1 { initState false with voiceModeRef := true } none).2.2.2.2 rfl,
   (C4_amended.2.1 { initState false with voiceModeRef := true } rfl rfl).1,
   (C4_amended.2.2 { initState false with
       recVoiceModeRef := true, recTimeout := some 1500 } (by decide) rfl).1⟩

/-- Counterexample to claim C5 as stated: 500ms after playback completed
(the settle timer has fired) recognition has not restarted; the restart
helper only stored a further 1500ms timer, while voice mode is still
active. -/
theorem C5_counterexample :
    (runState (initState false) c5Trace).voiceModeRef = true ∧
    (runState (initState false) c5Trace).isSpeaking = false ∧
    (runState (initState false) c5Trace).isListening = false ∧
    (runState (initState false) c5Trace).recognitionActive = false ∧
    (runState (initState false) c5Trace).recTimeout = some 1500 ∧
    speakCount (runEffects (initState false) c5Trace) = 1 := by decide

/-- Claim C5 (amended): in voice mode a successful response with
non-empty text starts exactly one playback of that text (the effect list
of the continuation is exactly one speak call) with a completion
callback; on playback completion the guard is released and, while voice
mode is active, a restart is scheduled after the 500ms settle delay; when
that timer fires with the guard clear it invokes the restart helper,
which starts recognition only after its own further fixed 1500ms delay,
returning to listening. -/
theorem C5_amended :
    (∀ (s : SysState) (respId : Option String) (textResponse : String),
       textResponse ≠ "" → s.voiceModeRef = true →
       (hvcSuccess s respId textResponse).2 = [Effect.speakText textResponse true] ∧
       (hvcSuccess s respId textResponse).1.isSpeaking = true ∧
       (hvcSuccess s respId textResponse).1.speakHasOnDone = true ∧
       (hvcSuccess s respId textResponse).1.currentBotSpeech = textResponse) ∧
    (∀ s : SysState,
       (voiceSpeakDone s).1.isProcessingVoiceRef = false ∧
       (voiceSpeakDone s).1.isSpeaking = false ∧
       (s.voiceModeRef = true →
         AnonTask.appRestart 500 ∈ (voiceSpeakDone s).1.pendingAnon)) ∧
    (∀ s : SysState, s.voiceModeRef = true → s.isProcessingVoiceRef = false →
       appRestartFire s = (restartListening s, []) ∧
       (restartListening s).recTimeout = some 1500) ∧
    (∀ s : SysState, s.recTimeout ≠ none → s.recVoiceModeRef = true →
       (recTimeoutFire s).1.isListening = true ∧
       Effect.recStart ∈ (recTimeoutFire s).2) := by
  refine ⟨?_, ?_, ?_, ?_⟩
  · intro s rid t ht hv
    simp only [hvcSuccess]
    rw [if_pos ⟨ht, hv⟩]
    exact ⟨rfl, rfl, rfl, rfl⟩
  · intro s
    refine ⟨rfl, rfl, ?_⟩
    intro hv
    show AnonTask.appRestart 500 ∈
      (if s.voiceModeRef then s.pendingAnon ++ [AnonTask.appRestart 500]
       else s.pendingAnon)
    simp [hv]
  · intro s hv hp
    rw [appRestartFire, if_pos ⟨hv, hp⟩]
    exact ⟨rfl, rfl⟩
  · intro s hr hv
    cases hrt : s.recTimeout with
    | none => exact absurd hrt hr
    | some d =>
      simp only [recTimeoutFire, hrt]
      rw [if_pos (show ({ s with recTimeout := none } : SysState).recVoiceModeRef = true
        from hv)]
      refine ⟨rfl, ?_⟩
      show Effect.recStart ∈ _ ++ [Effect.recStart]
      simp

/-- Witness for C5 (amended) at concrete states: a non-empty response in
voice mode speaks exactly once, the completion callback schedules the
500ms restart, and the pending 1500ms timer firing resumes listening. -/
theorem C5_amended_witness :
    (hvcSuccess { initState false with voiceModeRef := true } none "İyi günler").2 =
      [Effect.speakText "İyi günler" true] ∧
    AnonTask.appRestart 500 ∈
      (voiceSpeakDone { initState false with voiceModeRef := true }).1.pendingAnon ∧
    appRestartFire { initState false with voiceModeRef := true } =
      (restartListening { initState false with voiceModeRef := true }, []) ∧
    (recTimeoutFire { initState false with
        recVoiceModeRef := true, recTimeout := some 1500 }).1.isListening = true :=
  ⟨(C5_amended.1 { initState false with voiceModeRef := true } none "İyi günler"
      (by decide) rfl).1,
   (C5_amended.2.1 { initState false with voiceModeRef := true }).2.2 rfl,
   (C5_amended.2.2.1 { initState false with voiceModeRef := true } rfl rfl).1,
   (C5_amended.2.2.2 { initState false with
       recVoiceModeRef := true, recTimeout := some 1500 } (by decide) rfl).1⟩

/-- Claim C6: on mobile the recognizer is configured without continuous
capture, and voice-mode start arms the 10s auto-stop timer; but when that
timer fires with no result having arrived, no stop is issued and the
recognizer keeps running, because the timer callback's condition reads
the isListening value captured by the memoized startListening closure,
which is false.  This contradicts the claim (and the code's own comment
about auto-stopping after 10 seconds). -/
theorem C6_auto_stop_dead :
    recognitionContinuous true = false ∧
    (runState (initState true) [Event.voiceToggle]).autoStopArmed = true ∧
    (runState (initState true) [Event.voiceToggle]).recognitionActive = true ∧
    (runState (initState true) [Event.voiceToggle]).isListening = true ∧
    (step (runState (initState true) [Event.voiceToggle]) Event.autoStopElapsed).2 = [] ∧
    (step (runState (initState true) [Event.voiceToggle])
        Event.autoStopElapsed).1.recognitionActive = true ∧
    (step (runState (initState true) [Event.voiceToggle])
        Event.autoStopElapsed).1.isListening = true := by decide

end Ok25
